import Mathlib

/-!
Verification development for the access-control and token-lifecycle engine of
the wedding_plannera_ai repository.

The data model mirrors `app/models/user.py`, `app/models/payment_token.py`,
`app/models/template.py`, `app/models/generation.py`; the operations mirror
`app/services/payment_service.py` (class `PaymentService`) and
`app/api/generation.py` (`create_generation` access-control / record-creation
flow and the `process_generation` background task) and
`app/api/templates.py` (`check_template_access`).

SQLAlchemy sessions are modelled as explicit state passing over a list of
token rows; the Razorpay client is modelled as an oracle structure `Gateway`;
timestamps are naturals; nullable columns are `Option`.
-/

namespace WeddingPlanner

/-- `TokenStatus` enum from `app/models/payment_token.py` (entitlement axis). -/
inductive TokenStatus
  | UNUSED
  | USED
  | REFUNDED
  | EXPIRED
deriving DecidableEq, Repr

/-- `PaymentStatus` enum from `app/models/payment_token.py` (monetary axis). -/
inductive PaymentStatus
  | PENDING
  | COMPLETED
  | FAILED
  | REFUNDED
deriving DecidableEq, Repr

/-- `GenerationStatus` enum from `app/models/generation.py`. -/
inductive GenerationStatus
  | PENDING
  | PROCESSING
  | COMPLETED
  | FAILED
deriving DecidableEq, Repr

/-- `GenerationMode` enum from `app/models/generation.py`. -/
inductive GenerationMode
  | SINGLE
  | COUPLE
  | MULTI_ANGLE
deriving DecidableEq, Repr

/-- The `users` row (fields the core logic reads/writes), `app/models/user.py`. -/
structure User where
  id : Nat
  free_credits_remaining : Int
  is_subscribed : Bool
deriving DecidableEq, Repr

/-- The `templates` row (fields the core logic reads), `app/models/template.py`. -/
structure Template where
  id : Nat
  name : String
  is_free : Bool
  price : Int
  currency : String
deriving DecidableEq, Repr

/-- The `payment_tokens` row, `app/models/payment_token.py`. -/
structure PaymentToken where
  id : Nat
  user_id : Nat
  template_id : Nat
  payment_id : Option String
  payment_status : PaymentStatus
  amount_paid : Int
  currency : String
  status : TokenStatus
  used_at : Option Nat
  refund_id : Option String
  refunded_at : Option Nat
  refund_reason : Option String
  created_at : Nat
deriving DecidableEq, Repr

/-- The `generations` row (fields the core logic reads/writes), `app/models/generation.py`. -/
structure Generation where
  id : Nat
  user_id : Nat
  template_id : Nat
  payment_token_id : Option Nat
  generation_mode : GenerationMode
  status : GenerationStatus
  error_message : Option String
  completed_at : Option Nat
  generated_image_path : Option String
  watermarked_image_path : Option String
  has_watermark : Bool
  used_free_credit : Bool
  used_paid_token : Bool
deriving DecidableEq, Repr

/-- `PaymentToken.mark_as_used` from `app/models/payment_token.py`:
sets `status = USED` and stamps `used_at`. -/
def PaymentToken.mark_as_used (t : PaymentToken) (now : Nat) : PaymentToken :=
  { t with status := TokenStatus.USED, used_at := some now }

/-- `PaymentToken.mark_as_refunded` from `app/models/payment_token.py`:
sets `status = REFUNDED`, `payment_status = REFUNDED`, and records
`refund_id`, `refund_reason`, `refunded_at`. -/
def PaymentToken.mark_as_refunded (t : PaymentToken) (rid : String) (reason : String)
    (now : Nat) : PaymentToken :=
  { t with status := TokenStatus.REFUNDED, payment_status := PaymentStatus.REFUNDED,
           refund_id := some rid, refund_reason := some reason, refunded_at := some now }

/-- `User.can_generate_with_free_template` from `app/models/user.py`:
true iff at least one free credit remains. -/
def User.can_generate_with_free_template (u : User) : Bool :=
  decide (u.free_credits_remaining > 0)

/-- `User.deduct_free_credit` from `app/models/user.py`: deducts one credit when
positive and reports success; otherwise reports failure and leaves the user
unchanged. -/
def User.deduct_free_credit (u : User) : Bool × User :=
  if u.free_credits_remaining > 0 then
    (true, { u with free_credits_remaining := u.free_credits_remaining - 1 })
  else
    (false, u)

/-- The consumability predicate used by `User.get_unused_token_for_template` and
`User.can_generate_with_paid_template` in `app/models/user.py`: the token is for
this template, `status == UNUSED` and `payment_status == COMPLETED`. -/
def consumableFor (template_id : Nat) (t : PaymentToken) : Bool :=
  decide (t.template_id = template_id ∧ t.status = TokenStatus.UNUSED ∧
          t.payment_status = PaymentStatus.COMPLETED)

/-- `User.get_unused_token_for_template` from `app/models/user.py`: first token
of the user's token list satisfying `consumableFor`. The Python method reads
`self.payment_tokens`; here the user's token list is passed explicitly. -/
def get_unused_token_for_template (tokens : List PaymentToken) (template_id : Nat) :
    Option PaymentToken :=
  tokens.find? (consumableFor template_id)

/-- `User.can_generate_with_paid_template` from `app/models/user.py`. -/
def can_generate_with_paid_template (tokens : List PaymentToken) (template_id : Nat) : Bool :=
  (get_unused_token_for_template tokens template_id).isSome

/-- Authoritative payment state as reported by the gateway's fetch-payment API
(Razorpay payment status values relevant to the spec). -/
inductive GwPaymentState
  | captured
  | authorized
  | failed
  | created
deriving DecidableEq, Repr

/-- Oracle model of the Razorpay client used by `PaymentService`:
`verifySignature order_id payment_id signature` is the outcome of
`client.utility.verify_payment_signature`; `fetchPayment` is the authoritative
payment state the gateway would report; `refund payment_id amount` is
`client.payment.refund`, `none` when the gateway call raises. -/
structure Gateway where
  verifySignature : String → String → String → Bool
  fetchPayment : String → GwPaymentState
  refund : Option String → Int → Option String

/-- Update every row of the session whose `id` matches (SQLAlchemy row update
by primary key; ids are unique in a real table). -/
def updateToken (db : List PaymentToken) (token_id : Nat)
    (f : PaymentToken → PaymentToken) : List PaymentToken :=
  db.map (fun t => if t.id = token_id then f t else t)

/-- Row lookup `db.query(PaymentToken).filter(PaymentToken.id == token_id).first()`. -/
def findToken (db : List PaymentToken) (token_id : Nat) : Option PaymentToken :=
  db.find? (fun t => decide (t.id = token_id))

namespace PaymentService

/-- `PaymentService.verify_payment` from `app/services/payment_service.py`.
Returns the boolean result together with the post-call session state.
In test mode the signature check is skipped and the token is marked COMPLETED;
in production mode a missing signature fails without mutation, a signature
rejected by the gateway marks the token `payment_status = FAILED`, and an
accepted signature stores `payment_id` and marks `payment_status = COMPLETED`.
The source never calls the gateway's fetch-payment API in this function. -/
def verify_payment (testMode : Bool) (gw : Gateway) (payment_id order_id : String)
    (token_id : Nat) (db : List PaymentToken) (razorpay_signature : Option String) :
    Bool × List PaymentToken :=
  match findToken db token_id with
  | none => (false, db)
  | some _ =>
    if testMode then
      (true, updateToken db token_id (fun t =>
        { t with payment_id := some payment_id,
                 payment_status := PaymentStatus.COMPLETED }))
    else
      match razorpay_signature with
      | none => (false, db)
      | some sig =>
        if gw.verifySignature order_id payment_id sig then
          (true, updateToken db token_id (fun t =>
            { t with payment_id := some payment_id,
                     payment_status := PaymentStatus.COMPLETED }))
        else
          (false, updateToken db token_id (fun t =>
            { t with payment_status := PaymentStatus.FAILED }))

/-- Outcome of `PaymentService.refund_payment`: the two `ValueError`s, the
caught-exception `False` return, and the `True` return. -/
inductive RefundOutcome
  | tokenNotFound
  | invalidState
  | failed
  | success
deriving DecidableEq, Repr

/-- `PaymentService.refund_payment` from `app/services/payment_service.py`.
Raises (`tokenNotFound`) when no row has the id; raises (`invalidState`) when
`payment_status != COMPLETED`; in test mode refunds with a locally generated
refund id (`freshRefundId` stands for `secrets.token_hex`); in production mode
issues the gateway refund and on success applies `mark_as_refunded`; a gateway
exception rolls back and returns failure. -/
def refund_payment (testMode : Bool) (gw : Gateway) (freshRefundId : String)
    (token_id : Nat) (reason : String) (now : Nat) (db : List PaymentToken) :
    RefundOutcome × List PaymentToken :=
  match findToken db token_id with
  | none => (RefundOutcome.tokenNotFound, db)
  | some tok =>
    if tok.payment_status ≠ PaymentStatus.COMPLETED then
      (RefundOutcome.invalidState, db)
    else if testMode then
      (RefundOutcome.success,
        updateToken db token_id (fun t => t.mark_as_refunded freshRefundId reason now))
    else
      match gw.refund tok.payment_id tok.amount_paid with
      | none => (RefundOutcome.failed, db)
      | some rid =>
        (RefundOutcome.success,
          updateToken db token_id (fun t => t.mark_as_refunded rid reason now))

end PaymentService

/-- Outcome of the access-control block of `create_generation`
(`app/api/generation.py`, lines 184-231). `insufficientCredits` and
`paymentRequired` are the 403/402 responses with the structured detail the
source attaches (remaining count, template price); `deductFailed` is the 403
raised when `deduct_free_credit` reports failure; `noValidToken` is the second
402 raised when `get_unused_token_for_template` returns nothing after
`can_generate_with_paid_template` passed. -/
inductive AccessResult
  | insufficientCredits (remaining : Int)
  | deductFailed
  | paymentRequired (price : Int)
  | noValidToken
  | grantedFree
  | grantedPaid (token_id : Nat)
deriving DecidableEq, Repr

/-- The access-control block of `create_generation` (`app/api/generation.py`,
lines 184-231): free templates check then eagerly deduct a free credit; paid
templates select the first consumable token without mutating it. Returns the
decision together with the (possibly mutated) user. -/
def access_control (user : User) (tokens : List PaymentToken) (template : Template) :
    AccessResult × User :=
  if template.is_free then
    if ¬ user.can_generate_with_free_template then
      (AccessResult.insufficientCredits user.free_credits_remaining, user)
    else
      match user.deduct_free_credit with
      | (false, u) => (AccessResult.deductFailed, u)
      | (true, u) => (AccessResult.grantedFree, u)
  else
    if ¬ can_generate_with_paid_template tokens template.id then
      (AccessResult.paymentRequired template.price, user)
    else
      match get_unused_token_for_template tokens template.id with
      | none => (AccessResult.noValidToken, user)
      | some tok => (AccessResult.grantedPaid tok.id, user)

/-- Which upload fields are present on the multipart request to
`create_generation` (each `UploadFile` parameter, as a presence flag). -/
structure UploadedFiles where
  user_image : Bool
  partner_image : Bool
  couple_image : Bool
  user_front : Bool
  user_left_side : Bool
  user_right_side : Bool
  partner_front : Bool
  partner_left_side : Bool
  partner_right_side : Bool
deriving DecidableEq, Repr

/-- The per-mode required-file validation of `create_generation`
(`app/api/generation.py`, lines 243-299): returns the 400 error detail when a
required upload is missing, `none` when validation passes. -/
def validateFiles (mode : GenerationMode) (f : UploadedFiles) : Option String :=
  match mode with
  | GenerationMode.SINGLE =>
    if ¬ f.user_image then some "user_image is required for SINGLE mode" else none
  | GenerationMode.COUPLE =>
    if ¬ f.couple_image then some "couple_image is required for COUPLE mode" else none
  | GenerationMode.MULTI_ANGLE =>
    if ¬ (f.user_front ∧ f.user_left_side ∧ f.user_right_side ∧
          f.partner_front ∧ f.partner_left_side ∧ f.partner_right_side) then
      some "Missing required images for MULTI_ANGLE mode"
    else none

/-- Result of one `create_generation` request. -/
inductive CreateResult
  | accessDenied (r : AccessResult)
  | validationError (msg : String)
  | created
deriving DecidableEq, Repr

/-- Persisted state after a `create_generation` request: the HTTP result, the
committed user row, and the Generation row if one was persisted. -/
structure CreateOutcome where
  result : CreateResult
  user : User
  generation : Option Generation
deriving DecidableEq, Repr

/-- The tail of `create_generation` after the access-control block committed
(`db.commit()` at line 230): validate the uploads for the mode (the 400 path
leaves the already-committed user state in place and persists no Generation
row), then persist the PENDING Generation record with the audit fields and the
watermark rule `not template.is_free and not current_user.is_subscribed`. -/
def finishCreate (u : User) (template : Template) (mode : GenerationMode)
    (files : UploadedFiles) (genId : Nat) (ptid : Option Nat)
    (ufc upt : Bool) : CreateOutcome :=
  match validateFiles mode files with
  | some msg => ⟨CreateResult.validationError msg, u, none⟩
  | none =>
    ⟨CreateResult.created, u,
      some { id := genId, user_id := u.id, template_id := template.id,
             payment_token_id := ptid, generation_mode := mode,
             status := GenerationStatus.PENDING, error_message := none,
             completed_at := none, generated_image_path := none,
             watermarked_image_path := none,
             has_watermark := !template.is_free && !u.is_subscribed,
             used_free_credit := ufc, used_paid_token := upt }⟩

/-- `create_generation` from `app/api/generation.py` (lines 131-359), reduced
to its persisted effects: run the access-control block, commit its user
mutation, then validate files and persist the PENDING Generation record.
An access denial propagates before anything is committed. -/
def create_generation (user : User) (tokens : List PaymentToken) (template : Template)
    (mode : GenerationMode) (files : UploadedFiles) (genId : Nat) : CreateOutcome :=
  match access_control user tokens template with
  | (AccessResult.grantedFree, u) => finishCreate u template mode files genId none true false
  | (AccessResult.grantedPaid tid, u) => finishCreate u template mode files genId (some tid) false true
  | (r, _) => ⟨CreateResult.accessDenied r, user, none⟩

/-- State visible to the `process_generation` background task
(`app/api/generation.py`, lines 23-128): the Generation row, the token table,
and the owning user row (which the task never touches). -/
structure BgState where
  generation : Generation
  tokens : List PaymentToken
  user : User
deriving Repr

/-- `process_generation` from `app/api/generation.py` (lines 23-128).
`collab` is the outcome of the file-existence checks plus
`ImageGenerationService.generate_image` — `Except.error e` for any raised
exception with text `e`, `Except.ok (generated, watermarked)` on success.
On success: Generation COMPLETED with `completed_at` stamped and, when
`payment_token_id` is set, the matching token is `mark_as_used`.
On failure: Generation FAILED with `error_message` set and, when
`payment_token_id` is set, `PaymentService.refund_payment` is invoked with
reason `"Generation failed: " ++ e` (its own failure is swallowed).
The user row (free credits) is untouched on both paths. -/
def process_generation (collab : Except String (String × Option String))
    (testMode : Bool) (gw : Gateway) (freshRefundId : String)
    (add_watermark : Bool) (now : Nat) (st : BgState) : BgState :=
  match collab with
  | Except.ok (gp, wp) =>
    let g := { st.generation with
                 generated_image_path := some gp,
                 watermarked_image_path := wp,
                 status := GenerationStatus.COMPLETED,
                 completed_at := some now,
                 has_watermark := add_watermark }
    let toks :=
      match st.generation.payment_token_id with
      | some tid => updateToken st.tokens tid (fun t => t.mark_as_used now)
      | none => st.tokens
    ⟨g, toks, st.user⟩
  | Except.error e =>
    let g := { st.generation with
                 status := GenerationStatus.FAILED,
                 error_message := some e }
    let toks :=
      match st.generation.payment_token_id with
      | some tid =>
        (PaymentService.refund_payment testMode gw freshRefundId tid
          ("Generation failed: " ++ e) now st.tokens).2
      | none => st.tokens
    ⟨g, toks, st.user⟩

/-- Response body of `check_template_access` (`app/api/templates.py`,
lines 130-155). -/
structure AccessCheckResponse where
  can_access : Bool
  is_free : Bool
  requires_subscription : Bool
  user_credits : Int
  user_subscribed : Bool
deriving DecidableEq, Repr

/-- `check_template_access` from `app/api/templates.py` (lines 130-155):
`can_access = template.is_free or current_user.is_subscribed or
current_user.credits_remaining > 0` (where `credits_remaining` is the
`free_credits_remaining` alias); the user's payment tokens are not consulted. -/
def check_template_access (user : User) (template : Template) : AccessCheckResponse :=
  { can_access := template.is_free || user.is_subscribed ||
                  decide (user.free_credits_remaining > 0),
    is_free := template.is_free,
    requires_subscription := !template.is_free,
    user_credits := user.free_credits_remaining,
    user_subscribed := user.is_subscribed }

/-- One guarded `PaymentService` call, with its target token id (claim C5's
operation alphabet at the service level). -/
inductive ServiceOp
  | verify (testMode : Bool) (gw : Gateway) (payment_id order_id : String)
      (token_id : Nat) (sig : Option String)
  | refund (testMode : Bool) (gw : Gateway) (freshRefundId : String)
      (token_id : Nat) (reason : String) (now : Nat)

/-- Effect of one `ServiceOp` on the token table. -/
def ServiceOp.applyTo (op : ServiceOp) (db : List PaymentToken) : List PaymentToken :=
  match op with
  | ServiceOp.verify tm gw pid oid tid sig =>
    (PaymentService.verify_payment tm gw pid oid tid db sig).2
  | ServiceOp.refund tm gw fid tid reason now =>
    (PaymentService.refund_payment tm gw fid tid reason now db).2

/-- Effect of a sequence of `ServiceOp`s on the token table. -/
def applyOps (ops : List ServiceOp) (db : List PaymentToken) : List PaymentToken :=
  ops.foldl (fun d op => op.applyTo d) db

/-! Concrete rows and gateway oracles used by the closed instance theorems. -/

/-- A gateway that accepts every signature but whose authoritative payment
state reports the payment as failed. -/
def gwAcceptAllFetchFailed : Gateway :=
  ⟨fun _ _ _ => true, fun _ => GwPaymentState.failed, fun _ _ => none⟩

/-- A gateway that rejects every signature. -/
def gwRejectAll : Gateway :=
  ⟨fun _ _ _ => false, fun _ => GwPaymentState.created, fun _ _ => none⟩

/-- A gateway that accepts every signature and refunds successfully. -/
def gwAcceptAll : Gateway :=
  ⟨fun _ _ _ => true, fun _ => GwPaymentState.captured, fun _ _ => some "rfnd_1"⟩

/-- A PENDING/UNUSED token for template 5, as created at purchase-intent time. -/
def tokPending : PaymentToken :=
  ⟨1, 1, 5, some "order_1", PaymentStatus.PENDING, 199, "INR", TokenStatus.UNUSED,
   none, none, none, none, 0⟩

/-- A COMPLETED/UNUSED (consumable) token for template 5 with payment id `pay_1`. -/
def tokCompleted : PaymentToken :=
  ⟨1, 1, 5, some "pay_1", PaymentStatus.COMPLETED, 199, "INR", TokenStatus.UNUSED,
   none, none, none, none, 0⟩

/-- A second COMPLETED/UNUSED token (id 2) for template 5. -/
def tokOther : PaymentToken :=
  ⟨2, 1, 5, some "pay_2", PaymentStatus.COMPLETED, 199, "INR", TokenStatus.UNUSED,
   none, none, none, none, 1⟩

/-- A COMPLETED/USED token for template 5 (its backed generation succeeded). -/
def tokUsed : PaymentToken :=
  ⟨1, 1, 5, some "pay_1", PaymentStatus.COMPLETED, 199, "INR", TokenStatus.USED,
   some 10, none, none, none, 0⟩

/-- A fully refunded token for template 5. -/
def tokRefunded : PaymentToken :=
  ⟨1, 1, 5, some "pay_1", PaymentStatus.REFUNDED, 199, "INR", TokenStatus.REFUNDED,
   none, some "rfnd_0", some 3, some "earlier failure", 0⟩

/-- A free template. -/
def tmplFree : Template := ⟨10, "T1", true, 0, "INR"⟩

/-- A paid template priced 199 INR, id 5. -/
def tmplPaid : Template := ⟨5, "T2", false, 199, "INR"⟩

/-- A multipart request carrying no uploads at all. -/
def noFiles : UploadedFiles := ⟨false, false, false, false, false, false, false, false, false⟩

/-- A multipart request carrying the SINGLE-mode user image. -/
def singleFiles : UploadedFiles := ⟨true, false, false, false, false, false, false, false, false⟩

/-- A PROCESSING paid generation backed by token 1. -/
def genPaid : Generation :=
  ⟨1, 1, 5, some 1, GenerationMode.SINGLE, GenerationStatus.PROCESSING, none, none,
   none, none, true, false, true⟩

/-- A PROCESSING free-credit generation (no payment token). -/
def genFree : Generation :=
  ⟨2, 1, 10, none, GenerationMode.SINGLE, GenerationStatus.PROCESSING, none, none,
   none, none, false, true, false⟩

/-! Helper lemmas about the session-update combinators. -/

/-- A found consumable token satisfies the consumability invariant. -/
theorem consumable_of_find (tokens : List PaymentToken) (tid : Nat) (t : PaymentToken)
    (h : get_unused_token_for_template tokens tid = some t) :
    t.template_id = tid ∧ t.status = TokenStatus.UNUSED ∧
      t.payment_status = PaymentStatus.COMPLETED := by
  have hp := List.find?_some h
  simpa [consumableFor] using hp

/-- If no token of the list is consumable for the template, the selection
returns nothing. -/
theorem find_consumable_none (tokens : List PaymentToken) (tid : Nat)
    (h : ∀ t ∈ tokens, t.template_id = tid →
        ¬(t.status = TokenStatus.UNUSED ∧ t.payment_status = PaymentStatus.COMPLETED)) :
    get_unused_token_for_template tokens tid = none := by
  apply List.find?_eq_none.2
  intro t ht
  simp only [consumableFor, decide_eq_true_eq]
  rintro ⟨h1, h2, h3⟩
  exact h t ht h1 ⟨h2, h3⟩

/-- Paid-template access fails with the 402 carrying the template price when no
consumable token exists. -/
theorem access_control_no_token (user : User) (tokens : List PaymentToken)
    (template : Template) (hpaid : template.is_free = false)
    (hnone : get_unused_token_for_template tokens template.id = none) :
    access_control user tokens template
      = (AccessResult.paymentRequired template.price, user) := by
  simp [access_control, hpaid, can_generate_with_paid_template, hnone]

/-- Index-wise description of `updateToken`. -/
theorem updateToken_getElem? (db : List PaymentToken) (tid : Nat)
    (f : PaymentToken → PaymentToken) (i : Nat) (t : PaymentToken)
    (h : db[i]? = some t) :
    (updateToken db tid f)[i]? = some (if t.id = tid then f t else t) := by
  unfold updateToken
  rw [List.getElem?_map, h]
  rfl

/-- Membership in an `updateToken` image at the targeted id comes from a
matching source row. -/
theorem updateToken_mem_id (db : List PaymentToken) (tid : Nat)
    (f : PaymentToken → PaymentToken) (t : PaymentToken)
    (ht : t ∈ updateToken db tid f) (htid : t.id = tid) :
    ∃ s ∈ db, s.id = tid ∧ t = f s := by
  rcases List.mem_map.1 ht with ⟨s, hs, hst⟩
  by_cases h : s.id = tid
  · exact ⟨s, hs, h, by rw [← hst, if_pos h]⟩
  · rw [← hst, if_neg h] at htid
    exact absurd htid h

/-- `updateToken` is the identity when the update fixes every matching row. -/
theorem updateToken_eq_self (db : List PaymentToken) (tid : Nat)
    (f : PaymentToken → PaymentToken)
    (h : ∀ t ∈ db, t.id = tid → f t = t) :
    updateToken db tid f = db := by
  unfold updateToken
  induction db with
  | nil => rfl
  | cons a as ih =>
    simp only [List.map_cons]
    have ha : (if a.id = tid then f a else a) = a := by
      by_cases hc : a.id = tid
      · rw [if_pos hc]; exact h a (List.mem_cons_self a as) hc
      · rw [if_neg hc]
    rw [ha, ih (fun t ht htid => h t (List.mem_cons_of_mem a ht) htid)]

/-- Completing a token that already carries exactly these fields is a no-op. -/
theorem set_completed_eta (t : PaymentToken) (pid : String)
    (hc : t.payment_status = PaymentStatus.COMPLETED) (hp : t.payment_id = some pid) :
    ({ t with payment_id := some pid,
              payment_status := PaymentStatus.COMPLETED } : PaymentToken) = t := by
  cases t
  simp_all

/-- `verify_payment` never writes the entitlement `status` column. -/
theorem verify_payment_preserves_status (tm : Bool) (gw : Gateway) (pid oid : String)
    (tid : Nat) (db : List PaymentToken) (sig : Option String) (i : Nat) (t : PaymentToken)
    (h : db[i]? = some t) :
    ∃ u, ((PaymentService.verify_payment tm gw pid oid tid db sig).2)[i]? = some u ∧
      u.status = t.status := by
  cases hf : findToken db tid with
  | none =>
    simp only [PaymentService.verify_payment, hf]
    exact ⟨t, h, rfl⟩
  | some tok =>
    cases tm with
    | true =>
      simp only [PaymentService.verify_payment, hf, if_true]
      refine ⟨_, updateToken_getElem? db tid _ i t h, ?_⟩
      by_cases hid : t.id = tid <;> simp [hid]
    | false =>
      cases sig with
      | none =>
        simp only [PaymentService.verify_payment, hf]
        exact ⟨t, h, rfl⟩
      | some s =>
        cases hv : gw.verifySignature oid pid s with
        | true =>
          simp only [PaymentService.verify_payment, hf, hv]
          refine ⟨_, updateToken_getElem? db tid _ i t h, ?_⟩
          by_cases hid : t.id = tid <;> simp [hid]
        | false =>
          simp only [PaymentService.verify_payment, hf, hv]
          refine ⟨_, updateToken_getElem? db tid _ i t h, ?_⟩
          by_cases hid : t.id = tid <;> simp [hid]

/-- `refund_payment` either leaves a row's entitlement `status` unchanged or
sets it to REFUNDED. -/
theorem refund_payment_status_cases (tm : Bool) (gw : Gateway) (fid : String)
    (tid : Nat) (reason : String) (now : Nat) (db : List PaymentToken) (i : Nat)
    (t : PaymentToken) (h : db[i]? = some t) :
    ∃ u, ((PaymentService.refund_payment tm gw fid tid reason now db).2)[i]? = some u ∧
      (u.status = t.status ∨ u.status = TokenStatus.REFUNDED) := by
  cases hf : findToken db tid with
  | none =>
    simp only [PaymentService.refund_payment, hf]
    exact ⟨t, h, Or.inl rfl⟩
  | some tok =>
    by_cases hc : tok.payment_status = PaymentStatus.COMPLETED
    · cases tm with
      | true =>
        simp only [PaymentService.refund_payment, hf, hc, if_true]
        simp only [ne_eq, not_true_eq_false, if_false]
        refine ⟨_, updateToken_getElem? db tid _ i t h, ?_⟩
        by_cases hid : t.id = tid <;> simp [hid, PaymentToken.mark_as_refunded]
      | false =>
        cases hr : gw.refund tok.payment_id tok.amount_paid with
        | none =>
          simp only [PaymentService.refund_payment, hf, hc, hr]
          simp only [ne_eq, not_true_eq_false, if_false]
          exact ⟨t, h, Or.inl rfl⟩
        | some rid =>
          simp only [PaymentService.refund_payment, hf, hc, hr]
          simp only [ne_eq, not_true_eq_false, if_false]
          refine ⟨_, updateToken_getElem? db tid _ i t h, ?_⟩
          by_cases hid : t.id = tid <;> simp [hid, PaymentToken.mark_as_refunded]
    · simp only [PaymentService.refund_payment, hf, hc]
      simp only [ne_eq, if_pos hc]
      exact ⟨t, h, Or.inl rfl⟩

/-- One guarded service call either preserves a row's entitlement `status` or
sets it to REFUNDED. -/
theorem applyTo_status_cases (op : ServiceOp) (db : List PaymentToken) (i : Nat)
    (t : PaymentToken) (h : db[i]? = some t) :
    ∃ u, ((op.applyTo db))[i]? = some u ∧
      (u.status = t.status ∨ u.status = TokenStatus.REFUNDED) := by
  cases op with
  | verify tm gw pid oid tid sig =>
    obtain ⟨u, hu, hus⟩ := verify_payment_preserves_status tm gw pid oid tid db sig i t h
    exact ⟨u, hu, Or.inl hus⟩
  | refund tm gw fid tid reason now =>
    exact refund_payment_status_cases tm gw fid tid reason now db i t h

/-! Claim theorems. -/

/-- C1: the free-credit deduction and the Generation-record creation are NOT
committed atomically. With 2 free credits and a free template, a SINGLE-mode
request carrying no `user_image` is rejected 400 by the upload validation that
runs after the access-control block's `db.commit()`: no Generation row is
persisted, yet the committed balance dropped from 2 to 1. This evaluates the
code at the failing input of the claim. -/
theorem c1_credit_committed_without_generation :
    (create_generation ⟨1, 2, false⟩ [] tmplFree GenerationMode.SINGLE noFiles 1).generation
      = none ∧
    (create_generation ⟨1, 2, false⟩ [] tmplFree GenerationMode.SINGLE noFiles 1).result
      = CreateResult.validationError "user_image is required for SINGLE mode" ∧
    (create_generation ⟨1, 2, false⟩ [] tmplFree GenerationMode.SINGLE
        noFiles 1).user.free_credits_remaining = 1 := by
  decide

/-- C2: the access decision selects a token only if it is for the template,
`status == UNUSED` and `payment_status == COMPLETED`; in particular a token
with `payment_status == PENDING` is never selected; and when the user owns no
token satisfying both conditions for the template, the paid-template request is
rejected with the 402 payment-required response carrying the price, leaving the
user untouched. -/
theorem c2_token_selection_consumable (user : User) (tokens : List PaymentToken)
    (template : Template) :
    (∀ t, get_unused_token_for_template tokens template.id = some t →
        t.template_id = template.id ∧ t.status = TokenStatus.UNUSED ∧
        t.payment_status = PaymentStatus.COMPLETED) ∧
    (∀ t, t.payment_status = PaymentStatus.PENDING →
        get_unused_token_for_template tokens template.id ≠ some t) ∧
    (template.is_free = false →
      (∀ t ∈ tokens, t.template_id = template.id →
          ¬(t.status = TokenStatus.UNUSED ∧ t.payment_status = PaymentStatus.COMPLETED)) →
      access_control user tokens template
        = (AccessResult.paymentRequired template.price, user)) := by
  refine ⟨fun t ht => consumable_of_find tokens template.id t ht, ?_, ?_⟩
  · intro t hpend hsel
    have hcomp := (consumable_of_find tokens template.id t hsel).2.2
    rw [hpend] at hcomp
    exact PaymentStatus.noConfusion hcomp
  · intro hpaid hnone
    exact access_control_no_token user tokens template hpaid
      (find_consumable_none tokens template.id hnone)

/-- C2 witness: a user owning only a PENDING-payment token for paid template 5
is rejected with the 402 carrying the price 199. -/
theorem c2_token_selection_consumable_witness :
    tmplPaid.is_free = false ∧
    access_control ⟨1, 0, false⟩ [tokPending] tmplPaid
      = (AccessResult.paymentRequired tmplPaid.price, ⟨1, 0, false⟩) :=
  ⟨rfl, (c2_token_selection_consumable ⟨1, 0, false⟩ [tokPending] tmplPaid).2.2 rfl
    (by decide)⟩

/-- C7: on a free template, a zero balance is rejected with
`insufficient_credits` carrying the remaining count (0) and the user is
unchanged; a positive balance is granted the FREE_CREDIT resource with exactly
one credit deducted; and a non-negative balance stays non-negative. -/
theorem c7_free_template_credit_flow (user : User) (tokens : List PaymentToken)
    (template : Template) (hfree : template.is_free = true) :
    (user.free_credits_remaining = 0 →
      access_control user tokens template = (AccessResult.insufficientCredits 0, user)) ∧
    (0 < user.free_credits_remaining →
      access_control user tokens template
        = (AccessResult.grantedFree,
            { user with free_credits_remaining := user.free_credits_remaining - 1 })) ∧
    (0 ≤ user.free_credits_remaining →
      0 ≤ (access_control user tokens template).2.free_credits_remaining) := by
  refine ⟨?_, ?_, ?_⟩
  · intro h0
    simp [access_control, hfree, User.can_generate_with_free_template, h0]
  · intro hpos
    simp [access_control, hfree, User.can_generate_with_free_template, hpos,
          User.deduct_free_credit]
  · intro hge
    by_cases hpos : 0 < user.free_credits_remaining
    · have heq : access_control user tokens template
          = (AccessResult.grantedFree,
              { user with free_credits_remaining := user.free_credits_remaining - 1 }) := by
        simp [access_control, hfree, User.can_generate_with_free_template, hpos,
              User.deduct_free_credit]
      rw [heq]
      show 0 ≤ user.free_credits_remaining - 1
      omega
    · have h0 : user.free_credits_remaining = 0 := le_antisymm (not_lt.1 hpos) hge
      simp [access_control, hfree, User.can_generate_with_free_template, h0]

/-- C7 witness: a user with exactly 1 free credit is granted the free-template
request and ends with balance 0. -/
theorem c7_free_template_credit_flow_witness :
    tmplFree.is_free = true ∧
    (0 : Int) < (1 : Int) ∧
    access_control ⟨1, 1, false⟩ [] tmplFree
      = (AccessResult.grantedFree,
          { (⟨1, 1, false⟩ : User) with free_credits_remaining := (1 : Int) - 1 }) :=
  ⟨rfl, by decide,
    (c7_free_template_credit_flow ⟨1, 1, false⟩ [] tmplFree rfl).2.1 (by decide)⟩

/-- C10: `check_template_access` computes `can_access` from
`template.is_free or user.is_subscribed or credits > 0` without consulting
payment tokens, so a non-subscribed user with free credits but no consumable
token is reported as having access to a paid template although the generation
request itself is rejected with the 402 payment-required response and no
Generation row is created. -/
theorem c10_check_access_ignores_tokens (user : User) (tokens : List PaymentToken)
    (template : Template) (mode : GenerationMode) (files : UploadedFiles) (genId : Nat)
    (hpaid : template.is_free = false) (hcred : 0 < user.free_credits_remaining)
    (hnotok : ∀ t ∈ tokens, t.template_id = template.id →
        ¬(t.status = TokenStatus.UNUSED ∧ t.payment_status = PaymentStatus.COMPLETED)) :
    (check_template_access user template).can_access = true ∧
    (create_generation user tokens template mode files genId).result
      = CreateResult.accessDenied (AccessResult.paymentRequired template.price) ∧
    (create_generation user tokens template mode files genId).generation = none ∧
    (create_generation user tokens template mode files genId).user = user := by
  have hac := access_control_no_token user tokens template hpaid
    (find_consumable_none tokens template.id hnotok)
  refine ⟨?_, ?_, ?_, ?_⟩
  · simp [check_template_access, hcred]
  · simp [create_generation, hac]
  · simp [create_generation, hac]
  · simp [create_generation, hac]

/-- C10 witness: a non-subscribed user with 1 free credit and no token at all
is told `can_access = true` for the paid template 5 while the generation
request is denied with the 402 carrying price 199. -/
theorem c10_check_access_ignores_tokens_witness :
    tmplPaid.is_free = false ∧
    (0 : Int) < (1 : Int) ∧
    (check_template_access ⟨1, 1, false⟩ tmplPaid).can_access = true ∧
    (create_generation ⟨1, 1, false⟩ [] tmplPaid GenerationMode.SINGLE singleFiles 1).result
      = CreateResult.accessDenied (AccessResult.paymentRequired tmplPaid.price) :=
  ⟨rfl, by decide,
    (c10_check_access_ignores_tokens ⟨1, 1, false⟩ [] tmplPaid GenerationMode.SINGLE
      singleFiles 1 rfl (by decide) (by decide)).1,
    (c10_check_access_ignores_tokens ⟨1, 1, false⟩ [] tmplPaid GenerationMode.SINGLE
      singleFiles 1 rfl (by decide) (by decide)).2.1⟩

/-- C6: `refund_payment` raises token-not-found when no row has the id, raises
invalid-state when `payment_status != COMPLETED` (so a never-completed payment
cannot be refunded and a refunded one cannot be double-refunded), and when it
returns success every row with the id carries `status = REFUNDED`,
`payment_status = REFUNDED`, a recorded `refund_id`, the `refund_reason`, and
the `refunded_at` stamp. -/
theorem c6_refund_payment_contract (tm : Bool) (gw : Gateway) (fid : String)
    (tid : Nat) (reason : String) (now : Nat) (db : List PaymentToken) :
    (findToken db tid = none →
      PaymentService.refund_payment tm gw fid tid reason now db
        = (PaymentService.RefundOutcome.tokenNotFound, db)) ∧
    (∀ tok, findToken db tid = some tok →
      tok.payment_status ≠ PaymentStatus.COMPLETED →
      PaymentService.refund_payment tm gw fid tid reason now db
        = (PaymentService.RefundOutcome.invalidState, db)) ∧
    (∀ tok, findToken db tid = some tok →
      tok.payment_status = PaymentStatus.COMPLETED →
      (PaymentService.refund_payment tm gw fid tid reason now db).1
          = PaymentService.RefundOutcome.success →
      ∀ t ∈ (PaymentService.refund_payment tm gw fid tid reason now db).2, t.id = tid →
        t.status = TokenStatus.REFUNDED ∧ t.payment_status = PaymentStatus.REFUNDED ∧
        t.refund_id.isSome = true ∧ t.refund_reason = some reason ∧
        t.refunded_at = some now) := by
  refine ⟨?_, ?_, ?_⟩
  · intro hf
    simp [PaymentService.refund_payment, hf]
  · intro tok hf hnc
    simp [PaymentService.refund_payment, hf, hnc]
  · intro tok hf hc hs t ht htid
    cases tm with
    | true =>
      have h2 : (PaymentService.refund_payment true gw fid tid reason now db).2
          = updateToken db tid (fun s => s.mark_as_refunded fid reason now) := by
        simp [PaymentService.refund_payment, hf, hc]
      rw [h2] at ht
      obtain ⟨s, _, _, rfl⟩ := updateToken_mem_id db tid _ t ht htid
      simp [PaymentToken.mark_as_refunded]
    | false =>
      cases hr : gw.refund tok.payment_id tok.amount_paid with
      | none =>
        exfalso
        have hfail : (PaymentService.refund_payment false gw fid tid reason now db).1
            = PaymentService.RefundOutcome.failed := by
          simp [PaymentService.refund_payment, hf, hc, hr]
        rw [hfail] at hs
        exact PaymentService.RefundOutcome.noConfusion hs
      | some rid =>
        have h2 : (PaymentService.refund_payment false gw fid tid reason now db).2
            = updateToken db tid (fun s => s.mark_as_refunded rid reason now) := by
          simp [PaymentService.refund_payment, hf, hc, hr]
        rw [h2] at ht
        obtain ⟨s, _, _, rfl⟩ := updateToken_mem_id db tid _ t ht htid
        simp [PaymentToken.mark_as_refunded]

/-- C6 witness: refunding the COMPLETED/UNUSED token 1 through a gateway that
grants the refund marks it REFUNDED/REFUNDED with refund fields recorded. -/
theorem c6_refund_payment_contract_witness :
    findToken [tokCompleted] 1 = some tokCompleted ∧
    tokCompleted.payment_status = PaymentStatus.COMPLETED ∧
    ∀ t ∈ (PaymentService.refund_payment false gwAcceptAll "f" 1 "generation failed" 9
        [tokCompleted]).2, t.id = 1 →
      t.status = TokenStatus.REFUNDED ∧ t.payment_status = PaymentStatus.REFUNDED ∧
      t.refund_id.isSome = true ∧ t.refund_reason = some "generation failed" ∧
      t.refunded_at = some 9 :=
  ⟨by decide, rfl,
    (c6_refund_payment_contract false gwAcceptAll "f" 1 "generation failed" 9
      [tokCompleted]).2.2 tokCompleted (by decide) rfl (by decide)⟩

/-- C3 counterexample: the claim requires COMPLETED only after signature
verification AND a gateway fetch reporting captured/authorized funds, but with
a gateway whose authoritative payment state reports `failed`, a valid signature
alone still marks the token COMPLETED and returns success — `verify_payment`
never performs the fetch. -/
theorem c3_completed_without_gateway_fetch :
    (PaymentService.verify_payment false gwAcceptAllFetchFailed "pay_1" "order_1" 1
        [tokPending] (some "sig")).1 = true ∧
    (∀ t ∈ (PaymentService.verify_payment false gwAcceptAllFetchFailed "pay_1" "order_1" 1
        [tokPending] (some "sig")).2, t.payment_status = PaymentStatus.COMPLETED) ∧
    gwAcceptAllFetchFailed.fetchPayment "pay_1" = GwPaymentState.failed ∧
    gwAcceptAllFetchFailed.fetchPayment "pay_1" ≠ GwPaymentState.captured ∧
    gwAcceptAllFetchFailed.fetchPayment "pay_1" ≠ GwPaymentState.authorized := by
  decide

/-- C3 (amended): in the non-test path, `verify_payment` sets
`payment_status = COMPLETED` after successful signature verification alone —
its result is independent of the gateway's fetch-payment and refund oracles —
and on signature mismatch it sets `payment_status = FAILED` and returns
failure. -/
theorem c3_signature_alone_gates_completion (gw gw2 : Gateway) (pid oid sig : String)
    (tid : Nat) (db : List PaymentToken)
    (hsig : gw.verifySignature = gw2.verifySignature) :
    PaymentService.verify_payment false gw pid oid tid db (some sig)
      = PaymentService.verify_payment false gw2 pid oid tid db (some sig) ∧
    ((PaymentService.verify_payment false gw pid oid tid db (some sig)).1 = true →
      gw.verifySignature oid pid sig = true ∧
      ∀ t ∈ (PaymentService.verify_payment false gw pid oid tid db (some sig)).2,
        t.id = tid → t.payment_status = PaymentStatus.COMPLETED) ∧
    (gw.verifySignature oid pid sig = false →
      (PaymentService.verify_payment false gw pid oid tid db (some sig)).1 = false ∧
      ∀ t ∈ (PaymentService.verify_payment false gw pid oid tid db (some sig)).2,
        t.id = tid → t.payment_status = PaymentStatus.FAILED) := by
  refine ⟨?_, ?_, ?_⟩
  · simp only [PaymentService.verify_payment, hsig]
  · intro htrue
    cases hf : findToken db tid with
    | none =>
      exfalso
      simp [PaymentService.verify_payment, hf] at htrue
    | some tok =>
      cases hv : gw.verifySignature oid pid sig with
      | false =>
        exfalso
        simp [PaymentService.verify_payment, hf, hv] at htrue
      | true =>
        refine ⟨rfl, ?_⟩
        intro t ht htid
        have h2 : (PaymentService.verify_payment false gw pid oid tid db (some sig)).2
            = updateToken db tid (fun s =>
                { s with payment_id := some pid,
                         payment_status := PaymentStatus.COMPLETED }) := by
          simp [PaymentService.verify_payment, hf, hv]
        rw [h2] at ht
        obtain ⟨s, _, _, rfl⟩ := updateToken_mem_id db tid _ t ht htid
        rfl
  · intro hv
    cases hf : findToken db tid with
    | none =>
      refine ⟨by simp [PaymentService.verify_payment, hf], ?_⟩
      intro t ht htid
      exfalso
      have h2 : (PaymentService.verify_payment false gw pid oid tid db (some sig)).2
          = db := by
        simp [PaymentService.verify_payment, hf]
      rw [h2] at ht
      have hfm : ∀ s ∈ db, ¬ ((fun s => decide (s.id = tid)) s = true) :=
        List.find?_eq_none.1 (by simpa [findToken] using hf)
      have := hfm t ht
      simp at this
      exact this htid
    | some tok =>
      refine ⟨by simp [PaymentService.verify_payment, hf, hv], ?_⟩
      intro t ht htid
      have h2 : (PaymentService.verify_payment false gw pid oid tid db (some sig)).2
          = updateToken db tid
              (fun s => { s with payment_status := PaymentStatus.FAILED }) := by
        simp [PaymentService.verify_payment, hf, hv]
      rw [h2] at ht
      obtain ⟨s, _, _, rfl⟩ := updateToken_mem_id db tid _ t ht htid
      rfl

/-- C3 witness: a rejecting gateway makes verification of the PENDING token 1
fail and marks it FAILED. -/
theorem c3_signature_alone_gates_completion_witness :
    gwRejectAll.verifySignature "order_1" "pay_1" "s" = false ∧
    (PaymentService.verify_payment false gwRejectAll "pay_1" "order_1" 1 [tokPending]
        (some "s")).1 = false ∧
    ∀ t ∈ (PaymentService.verify_payment false gwRejectAll "pay_1" "order_1" 1 [tokPending]
        (some "s")).2, t.id = 1 → t.payment_status = PaymentStatus.FAILED :=
  ⟨rfl,
    ((c3_signature_alone_gates_completion gwRejectAll gwRejectAll "pay_1" "order_1" "s" 1
        [tokPending] rfl).2.2 rfl).1,
    ((c3_signature_alone_gates_completion gwRejectAll gwRejectAll "pay_1" "order_1" "s" 1
        [tokPending] rfl).2.2 rfl).2⟩

/-- C4 counterexample: re-verifying an already-COMPLETED token is NOT free of
side effects — with a mismatching signature the second call returns failure and
overwrites `payment_status` from COMPLETED to FAILED. -/
theorem c4_reverify_bad_signature_corrupts :
    tokCompleted.payment_status = PaymentStatus.COMPLETED ∧
    (PaymentService.verify_payment false gwRejectAll "pay_2" "order_1" 1 [tokCompleted]
        (some "bad")).1 = false ∧
    (∀ t ∈ (PaymentService.verify_payment false gwRejectAll "pay_2" "order_1" 1 [tokCompleted]
        (some "bad")).2, t.payment_status = PaymentStatus.FAILED) := by
  decide

/-- C4 (amended): `verify_payment` has no completed-token early return; it
re-runs full verification. Re-verifying an already-COMPLETED token with the
same `payment_id` and a signature the gateway accepts returns success and
leaves the session unchanged, but a mismatched signature returns failure and
overwrites `payment_status` to FAILED. -/
theorem c4_reverify_completed_noop (gw : Gateway) (pid oid sig : String)
    (tid : Nat) (db : List PaymentToken) (tok : PaymentToken)
    (hfind : findToken db tid = some tok)
    (hall : ∀ t ∈ db, t.id = tid → t = tok)
    (hc : tok.payment_status = PaymentStatus.COMPLETED)
    (hp : tok.payment_id = some pid)
    (hs : gw.verifySignature oid pid sig = true) :
    PaymentService.verify_payment false gw pid oid tid db (some sig) = (true, db) := by
  have h2 : PaymentService.verify_payment false gw pid oid tid db (some sig)
      = (true, updateToken db tid (fun s =>
          { s with payment_id := some pid,
                   payment_status := PaymentStatus.COMPLETED })) := by
    simp [PaymentService.verify_payment, hfind, hs]
  rw [h2]
  congr 1
  apply updateToken_eq_self
  intro t ht htid
  rw [hall t ht htid]
  exact set_completed_eta tok pid hc hp

/-- C4 witness: re-verifying the COMPLETED token 1 with its own payment id and
an accepted signature returns success and leaves the session unchanged. -/
theorem c4_reverify_completed_noop_witness :
    PaymentService.verify_payment false gwAcceptAll "pay_1" "order_1" 1 [tokCompleted]
        (some "sig") = (true, [tokCompleted]) :=
  c4_reverify_completed_noop gwAcceptAll "pay_1" "order_1" "sig" 1 [tokCompleted]
    tokCompleted (by decide) (by decide) rfl rfl rfl

/-- C5 counterexample: neither USED nor REFUNDED is terminal under the claim's
own operation set (verify_payment, refund_payment, mark_as_used,
mark_as_refunded). `refund_payment` guards only on
`payment_status == COMPLETED`, so the USED token 1 (payment still COMPLETED)
is refunded and its entitlement status leaves USED for REFUNDED; and
`mark_as_used` — which the `process_generation` success path invokes
unconditionally on the reserved token, reachable for a REFUNDED token because
paid reservation never mutates the token — moves the REFUNDED token 1 back to
USED. -/
theorem c5_used_token_leaves_used :
    tokUsed.status = TokenStatus.USED ∧
    (PaymentService.refund_payment true gwAcceptAll "rfnd_9" 1 "manual refund" 20
        [tokUsed]).1 = PaymentService.RefundOutcome.success ∧
    (∀ t ∈ (PaymentService.refund_payment true gwAcceptAll "rfnd_9" 1 "manual refund" 20
        [tokUsed]).2, t.status = TokenStatus.REFUNDED) ∧
    tokRefunded.status = TokenStatus.REFUNDED ∧
    (process_generation (Except.ok ("out.png", none)) true gwAcceptAll "f" false 30
        ⟨genPaid, [tokRefunded], ⟨1, 0, false⟩⟩).tokens
      = [tokRefunded.mark_as_used 30] ∧
    (tokRefunded.mark_as_used 30).status = TokenStatus.USED := by
  decide

/-- C5 (amended): only REFUNDED is stable, and only under the guarded
PaymentService operations: every sequence of `verify_payment`/`refund_payment`
calls (on any targets) leaves a REFUNDED token REFUNDED. Under the claim's
full operation set neither USED nor REFUNDED is terminal: `refund_payment`
moves a USED token whose payment is COMPLETED to REFUNDED, and the unguarded
setters invoked by the orchestrator flip any token — `mark_as_used` yields
status USED and `mark_as_refunded` yields status REFUNDED regardless of the
token's prior status, so `mark_as_used` takes even a REFUNDED token to USED. -/
theorem c5_status_stability (ops : List ServiceOp) (db : List PaymentToken)
    (i : Nat) (t : PaymentToken) (now : Nat) (rid reason : String)
    (h : db[i]? = some t) (hr : t.status = TokenStatus.REFUNDED) :
    (∃ u, (applyOps ops db)[i]? = some u ∧ u.status = TokenStatus.REFUNDED) ∧
    ∀ s : PaymentToken, (s.mark_as_used now).status = TokenStatus.USED ∧
      (s.mark_as_refunded rid reason now).status = TokenStatus.REFUNDED := by
  refine ⟨?_, fun s => ⟨rfl, rfl⟩⟩
  induction ops generalizing db t with
  | nil => exact ⟨t, h, hr⟩
  | cons op ops ih =>
    obtain ⟨u, hu, hus⟩ := applyTo_status_cases op db i t h
    have hur : u.status = TokenStatus.REFUNDED := by
      rcases hus with h1 | h1
      · rw [h1, hr]
      · exact h1
    exact ih (op.applyTo db) u hu hur

/-- C5 witness: the refunded token 1 stays REFUNDED across a test-mode
re-verification followed by a refund attempt, while the unguarded setters
still flip statuses both ways. -/
theorem c5_status_stability_witness :
    [tokRefunded][0]? = some tokRefunded ∧
    tokRefunded.status = TokenStatus.REFUNDED ∧
    ((∃ u, (applyOps [ServiceOp.verify true gwAcceptAll "pay_9" "order_9" 1 none,
          ServiceOp.refund true gwAcceptAll "rfnd_9" 1 "again" 30] [tokRefunded])[0]?
        = some u ∧ u.status = TokenStatus.REFUNDED) ∧
     ∀ s : PaymentToken, (s.mark_as_used 30).status = TokenStatus.USED ∧
       (s.mark_as_refunded "rfnd_9" "again" 30).status = TokenStatus.REFUNDED) :=
  ⟨rfl, rfl,
    c5_status_stability
      [ServiceOp.verify true gwAcceptAll "pay_9" "order_9" 1 none,
       ServiceOp.refund true gwAcceptAll "rfnd_9" 1 "again" 30]
      [tokRefunded] 0 tokRefunded 30 "rfnd_9" "again" rfl rfl⟩

/-- C8: when the background task's collaborator raises with text `e`, the
Generation transitions to FAILED with `error_message = e`; the user row (hence
`free_credits_remaining`) is untouched; for a run without a `payment_token_id`
the token table is untouched; and for a paid run the resulting token table is
exactly the one produced by invoking `refund_payment` on the reserved token
with reason `"Generation failed: " ++ e`. -/
theorem c8_failure_transitions_and_refund (e : String) (tm : Bool) (gw : Gateway)
    (fid : String) (aw : Bool) (now : Nat) (st : BgState) :
    (process_generation (Except.error e) tm gw fid aw now st).generation.status
      = GenerationStatus.FAILED ∧
    (process_generation (Except.error e) tm gw fid aw now st).generation.error_message
      = some e ∧
    (process_generation (Except.error e) tm gw fid aw now st).user = st.user ∧
    (st.generation.payment_token_id = none →
      (process_generation (Except.error e) tm gw fid aw now st).tokens = st.tokens) ∧
    (∀ tid, st.generation.payment_token_id = some tid →
      (process_generation (Except.error e) tm gw fid aw now st).tokens
        = (PaymentService.refund_payment tm gw fid tid ("Generation failed: " ++ e) now
            st.tokens).2) := by
  refine ⟨rfl, rfl, rfl, ?_, ?_⟩
  · intro h
    simp [process_generation, h]
  · intro tid h
    simp [process_generation, h]

/-- C8 witness: a failed free-credit run marks the Generation FAILED with the
error text and leaves both the (empty) token table and the user untouched. -/
theorem c8_failure_transitions_and_refund_witness :
    (process_generation (Except.error "boom") true gwAcceptAll "f" false 7
        ⟨genFree, [], ⟨1, 0, false⟩⟩).generation.status = GenerationStatus.FAILED ∧
    (process_generation (Except.error "boom") true gwAcceptAll "f" false 7
        ⟨genFree, [], ⟨1, 0, false⟩⟩).generation.error_message = some "boom" ∧
    (process_generation (Except.error "boom") true gwAcceptAll "f" false 7
        ⟨genFree, [], ⟨1, 0, false⟩⟩).user = (⟨1, 0, false⟩ : User) ∧
    (process_generation (Except.error "boom") true gwAcceptAll "f" false 7
        ⟨genFree, [], ⟨1, 0, false⟩⟩).tokens = [] :=
  ⟨(c8_failure_transitions_and_refund "boom" true gwAcceptAll "f" false 7
      ⟨genFree, [], ⟨1, 0, false⟩⟩).1,
   (c8_failure_transitions_and_refund "boom" true gwAcceptAll "f" false 7
      ⟨genFree, [], ⟨1, 0, false⟩⟩).2.1,
   (c8_failure_transitions_and_refund "boom" true gwAcceptAll "f" false 7
      ⟨genFree, [], ⟨1, 0, false⟩⟩).2.2.1,
   (c8_failure_transitions_and_refund "boom" true gwAcceptAll "f" false 7
      ⟨genFree, [], ⟨1, 0, false⟩⟩).2.2.2.1 rfl⟩

/-- C9: when the background task's collaborator succeeds on a paid run, the
Generation transitions to COMPLETED with `completed_at` stamped, the user row
is untouched, the reserved token (id = `payment_token_id`) is exactly
`mark_as_used` (status USED), and every token row with any other id is left
unchanged in all fields. -/
theorem c9_success_finalizes_token_frame (gp : String) (wp : Option String) (tm : Bool)
    (gw : Gateway) (fid : String) (aw : Bool) (now : Nat) (st : BgState) (tid : Nat)
    (hp : st.generation.payment_token_id = some tid) :
    (process_generation (Except.ok (gp, wp)) tm gw fid aw now st).generation.status
      = GenerationStatus.COMPLETED ∧
    (process_generation (Except.ok (gp, wp)) tm gw fid aw now st).generation.completed_at
      = some now ∧
    (process_generation (Except.ok (gp, wp)) tm gw fid aw now st).user = st.user ∧
    ∀ (i : Nat) (t : PaymentToken), st.tokens[i]? = some t →
      (t.id = tid →
        (process_generation (Except.ok (gp, wp)) tm gw fid aw now st).tokens[i]?
          = some (t.mark_as_used now) ∧ (t.mark_as_used now).status = TokenStatus.USED) ∧
      (t.id ≠ tid →
        (process_generation (Except.ok (gp, wp)) tm gw fid aw now st).tokens[i]?
          = some t) := by
  have htok : (process_generation (Except.ok (gp, wp)) tm gw fid aw now st).tokens
      = updateToken st.tokens tid (fun s => s.mark_as_used now) := by
    simp [process_generation, hp]
  refine ⟨rfl, rfl, rfl, ?_⟩
  intro i t ht
  constructor
  · intro htid
    refine ⟨?_, rfl⟩
    rw [htok, updateToken_getElem? st.tokens tid _ i t ht, if_pos htid]
  · intro htid
    rw [htok, updateToken_getElem? st.tokens tid _ i t ht, if_neg htid]

/-- C9 witness: a successful paid run over the table [token 1 (reserved),
token 2] completes the Generation, marks token 1 USED, and leaves token 2
untouched. -/
theorem c9_success_finalizes_token_frame_witness :
    (⟨genPaid, [tokCompleted, tokOther], ⟨1, 0, false⟩⟩ : BgState).generation.payment_token_id
      = some 1 ∧
    (process_generation (Except.ok ("out.png", some "wm.png")) true gwAcceptAll "f" true 7
        ⟨genPaid, [tokCompleted, tokOther], ⟨1, 0, false⟩⟩).generation.status
      = GenerationStatus.COMPLETED ∧
    (process_generation (Except.ok ("out.png", some "wm.png")) true gwAcceptAll "f" true 7
        ⟨genPaid, [tokCompleted, tokOther], ⟨1, 0, false⟩⟩).tokens[0]?
      = some (tokCompleted.mark_as_used 7) ∧
    (process_generation (Except.ok ("out.png", some "wm.png")) true gwAcceptAll "f" true 7
        ⟨genPaid, [tokCompleted, tokOther], ⟨1, 0, false⟩⟩).tokens[1]? = some tokOther :=
  ⟨rfl,
   (c9_success_finalizes_token_frame "out.png" (some "wm.png") true gwAcceptAll "f" true 7
      ⟨genPaid, [tokCompleted, tokOther], ⟨1, 0, false⟩⟩ 1 rfl).1,
   (((c9_success_finalizes_token_frame "out.png" (some "wm.png") true gwAcceptAll "f" true 7
      ⟨genPaid, [tokCompleted, tokOther], ⟨1, 0, false⟩⟩ 1 rfl).2.2.2 0 tokCompleted
        rfl).1 rfl).1,
   ((c9_success_finalizes_token_frame "out.png" (some "wm.png") true gwAcceptAll "f" true 7
      ⟨genPaid, [tokCompleted, tokOther], ⟨1, 0, false⟩⟩ 1 rfl).2.2.2 1 tokOther
        rfl).2 (by decide)⟩

end WeddingPlanner
